import Mathlib

/-!
Verification of the goal-propagation and reward-shaping control logic of the
HAC (Hierarchical Actor Critic) tutorial agent.

The definitions below are a shallow embedding of the tutorial notebook
`3. Implementing a Hierarchical RL Graph.ipynb`:

* `HACDDPGAgent.choose_action` and
  `HACDDPGAgent.update_transition_before_adding_to_replay_buffer` are
  translated from the notebook's `HACDDPGAgent` class.  Mutation of the
  transition, of the agent's own signals, and of the graph manager's shared
  flag is made explicit by returning the updated values.
* Machine floats are modelled as rationals (`ℚ`); numpy vectors as `List ℚ`.
* Randomness (`np.random.rand()`) is modelled by passing the drawn sample as
  an explicit argument.
* Library pieces that the notebook configures but whose bodies live in the
  `rl_coach` package (the `GoalsSpace`/`ReachingGoal` reward, the hindsight
  replay relabeling, the nested level scheduler) are modelled from the spec;
  each such definition carries a doc comment saying so.
-/

/-- Run phases of an agent, from `rl_coach.core_types.RunPhase`. -/
inductive RunPhase where
  | HEATUP
  | TRAIN
  | TEST
  | UNDEFINED
deriving DecidableEq, Repr

/-- A numeric vector (a numpy array in the source), modelled over `ℚ`. -/
abbrev Vec := List ℚ

/-- The parameters the notebook passes to `ReachingGoal`:
`default_reward`, `goal_reaching_reward` and the per-dimension
`distance_from_goal_threshold`. -/
structure ReachingGoal where
  default_reward : ℚ
  goal_reaching_reward : ℚ
  distance_from_goal_threshold : Vec
deriving DecidableEq, Repr

/-- Subtraction on `ℚ`, written through `mkRat` so that it evaluates inside
the kernel (the library's `Rat.sub` is `@[irreducible]`); `qsub_eq_sub`
below shows it is ordinary subtraction. -/
def qsub (a b : ℚ) : ℚ := mkRat (a.num * b.den - b.num * a.den) (a.den * b.den)

theorem qsub_eq_sub (a b : ℚ) : qsub a b = a - b := by
  have ha : ((a.den : ℚ)) ≠ 0 := Nat.cast_ne_zero.mpr a.den_nz
  have hb : ((b.den : ℚ)) ≠ 0 := Nat.cast_ne_zero.mpr b.den_nz
  conv_rhs => rw [← Rat.num_div_den a, ← Rat.num_div_den b]
  rw [div_sub_div _ _ ha hb, qsub, Rat.mkRat_eq_div]
  push_cast
  ring_nf

/-- `np.abs` on one rational coordinate, written with an explicit test so
that it evaluates inside the kernel; `rat_abs_eq_abs` below shows it is the
ordinary absolute value. -/
def rat_abs (q : ℚ) : ℚ := if q < 0 then -q else q

theorem rat_abs_eq_abs (q : ℚ) : rat_abs q = |q| := by
  rw [rat_abs]
  split
  · rw [abs_of_neg]; assumption
  · rw [abs_of_nonneg (not_lt.mp (by assumption))]

/-- The distance function the notebook installs in its `GoalsSpace`:
`lambda goal, state: np.abs(goal - state)` — per-dimension L1 distance. -/
def distance_from_goal (goal achieved : Vec) : Vec :=
  List.zipWith (fun g s => rat_abs (qsub g s)) goal achieved

/-- Modelled from the spec: `GoalSpace.reward_for(goal, achieved_state)`
(`get_reward_for_goal_and_state` in the source's call sites, whose body lives
in the `rl_coach` library, not in this repository's tutorial file).  Per the
spec, `reached = distance_fn(goal, achieved_state) <= reaching_threshold`
per-dimension, and `reward = success_reward if reached else default_reward`. -/
def get_reward_for_goal_and_state (rg : ReachingGoal) (goal achieved : Vec) :
    ℚ × Bool :=
  let reached :=
    (List.zipWith (fun d th => decide (d ≤ th))
      (distance_from_goal goal achieved) rg.distance_from_goal_threshold).all id
  (if reached then rg.goal_reaching_reward else rg.default_reward, reached)

/-- One observation dictionary (`transition.state` / `transition.next_state`):
only the keys the embedded methods touch are modelled — the goal-achievement
signal `achieved_goal` and the (possibly absent) `desired_goal` key. -/
structure ObsDict where
  achieved_goal : Vec
  desired_goal : Option Vec
deriving DecidableEq, Repr

instance : Inhabited ObsDict := ⟨⟨[], none⟩⟩

/-- A stored transition: `{state, action, reward, next_state, game_over}`
(`game_over` is the source's name for the terminal flag). -/
structure Transition where
  state : ObsDict
  action : Vec
  reward : ℚ
  next_state : ObsDict
  game_over : Bool
deriving DecidableEq, Repr

instance : Inhabited Transition := ⟨⟨default, [], 0, default, false⟩⟩

/-- The state of one `HACDDPGAgent` that the embedded methods read or write:
its level position flags (`self.ap.is_a_highest_level_agent`,
`self.ap.is_a_lowest_level_agent`), the goal currently assigned from above
(`self.current_hrl_goal`), the reward parameters of `self.spaces.goal`, the
`self.ap.algorithm.time_limit` attribute read by the miss penalty, the
`sub_goal_testing_rate` cached at construction, the agent's run phase, the
exploration policy's phase, and the samples of the agent-owned
`distance_from_goal` signal. -/
structure HACDDPGAgent where
  is_a_highest_level_agent : Bool
  is_a_lowest_level_agent : Bool
  current_hrl_goal : Vec
  goal : ReachingGoal
  time_limit : ℤ
  sub_goal_testing_rate : ℚ
  phase : RunPhase
  exploration_phase : RunPhase
  distance_from_goal_samples : List Vec
deriving DecidableEq, Repr

/-- The shared graph-manager state the embedded methods touch: the
process-wide `should_test_current_sub_goal` flag. -/
structure GraphManager where
  should_test_current_sub_goal : Bool
deriving DecidableEq, Repr

/-- `HACDDPGAgent.choose_action`, from the notebook.  The highest-level agent
re-draws the shared `should_test_current_sub_goal` flag (`np.random.rand() <
self.sub_goal_testing_rate`, with the drawn sample passed explicitly as
`rand_draw`); then, in the `TRAIN` run phase, the exploration policy's phase
is forced to `TEST` while the flag is set and otherwise follows the agent's
own phase.  The call into the base class that actually queries the network
for an action is an external collaborator and is not modelled.  Returns the
updated agent and graph manager. -/
def choose_action (ag : HACDDPGAgent) (gm : GraphManager) (rand_draw : ℚ) :
    HACDDPGAgent × GraphManager :=
  let gm1 :=
    if ag.is_a_highest_level_agent then
      { gm with should_test_current_sub_goal :=
          decide (rand_draw < ag.sub_goal_testing_rate) }
    else gm
  let ag1 :=
    if ag.phase = RunPhase.TRAIN then
      if gm1.should_test_current_sub_goal then
        { ag with exploration_phase := RunPhase.TEST }
      else
        { ag with exploration_phase := ag.phase }
    else ag
  (ag1, gm1)

/-- `HACDDPGAgent.update_transition_before_adding_to_replay_buffer`, from the
notebook.  Step 1 (`not self.ap.is_a_highest_level_agent`): attach
`current_hrl_goal` as `desired_goal` to `state` and `next_state`, record a
sample in the agent-owned `distance_from_goal` signal, overwrite `reward`
with the goal reward and OR `sub_goal_reached` into `game_over`.  Step 2
(`not self.ap.is_a_lowest_level_agent and should_test_current_sub_goal`): if
the sub-goal this level emitted as its `action` was missed by `next_state`,
overwrite `reward` with `-self.ap.algorithm.time_limit`.  Returns the
updated transition and the updated agent. -/
def update_transition_before_adding_to_replay_buffer
    (ag : HACDDPGAgent) (should_test_current_sub_goal : Bool)
    (t : Transition) : Transition × HACDDPGAgent :=
  let step1 : Transition × HACDDPGAgent :=
    if !ag.is_a_highest_level_agent then
      let t1 := { t with
        state := { t.state with desired_goal := some ag.current_hrl_goal },
        next_state :=
          { t.next_state with desired_goal := some ag.current_hrl_goal } }
      let ag1 := { ag with distance_from_goal_samples :=
        ag.distance_from_goal_samples ++
          [distance_from_goal ag.current_hrl_goal t1.next_state.achieved_goal] }
      let p := get_reward_for_goal_and_state ag.goal ag.current_hrl_goal
        t1.next_state.achieved_goal
      ({ t1 with reward := p.1, game_over := t1.game_over || p.2 }, ag1)
    else (t, ag)
  let t2 := step1.1
  let ag2 := step1.2
  if !ag2.is_a_lowest_level_agent && should_test_current_sub_goal then
    let q := get_reward_for_goal_and_state ag2.goal t2.action
      t2.next_state.achieved_goal
    let sub_goal_is_missed := !q.2
    if sub_goal_is_missed then
      ({ t2 with reward := -(ag2.time_limit : ℚ) }, ag2)
    else (t2, ag2)
  else (t2, ag2)

/-! ### The notebook preset's configuration values -/

/-- `distance_from_goal_threshold = np.array([0.075, 0.075, 0.75])` from the
notebook preset. -/
def preset_distance_from_goal_threshold : Vec :=
  [mkRat 75 1000, mkRat 75 1000, mkRat 75 100]

/-- `ReachingGoal(default_reward=-1, goal_reaching_reward=0,
distance_from_goal_threshold=...)` from the notebook's `goals_space`. -/
def preset_reaching_goal : ReachingGoal :=
  { default_reward := -1
    goal_reaching_reward := 0
    distance_from_goal_threshold := preset_distance_from_goal_threshold }

/-- `time_limit = 1000` from the notebook preset, passed to the environment
as its step budget (`additional_simulator_parameters`) and used for
`custom_reward_threshold = -time_limit + 1`. -/
def preset_time_limit : ℤ := 1000

/-- The dynamically-added HAC attributes of an algorithm-parameters object.
The base `DDPGAlgorithmParameters` class does not declare
`sub_goal_testing_rate` or `time_limit`; in the embedding an absent Python
attribute is `none`. -/
structure AlgorithmParameters where
  sub_goal_testing_rate : Option ℚ := none
  time_limit : Option ℤ := none
deriving DecidableEq, Repr

/-- `DDPGAlgorithmParameters()` — the base class constructor, which installs
neither HAC attribute. -/
def DDPGAlgorithmParameters.mk' : AlgorithmParameters := {}

/-- `HACDDPGAlgorithmParameters()` from the notebook: the base constructor
followed by `self.sub_goal_testing_rate = 0.5` and `self.time_limit = 40`. -/
def HACDDPGAlgorithmParameters.mk' : AlgorithmParameters :=
  { DDPGAlgorithmParameters.mk' with
    sub_goal_testing_rate := some (mkRat 1 2)
    time_limit := some 40 }

/-- The agent-parameters attributes the claims touch. -/
structure AgentParameters where
  algorithm : AlgorithmParameters
deriving DecidableEq, Repr

/-- `DDPGAgentParameters()` — the base class constructor; its `algorithm`
attribute is a `DDPGAlgorithmParameters()` instance. -/
def DDPGAgentParameters.mk' : AgentParameters :=
  { algorithm := DDPGAlgorithmParameters.mk' }

/-- `HACDDPGAgentParameters()` from the notebook: the base constructor
followed by `self.algorithm = DDPGAlgorithmParameters()` — a plain DDPG
algorithm-parameters object, not a `HACDDPGAlgorithmParameters()`. -/
def HACDDPGAgentParameters.mk' : AgentParameters :=
  { DDPGAgentParameters.mk' with algorithm := DDPGAlgorithmParameters.mk' }

/-! ### Hindsight experience replay (modelled from the spec)

The replay-buffer classes the notebook instantiates
(`EpisodicHindsightExperienceReplay(Parameters)`) live in the `rl_coach`
library, not in this repository's tutorial file, so their relabeling step is
modelled from the spec. -/

/-- Modelled from the spec: relabeling one stored transition against a
substitute goal — the `goal` (`desired_goal`) field is replaced by an
achieved outcome and `reward`/`terminal` are recomputed via
`GoalSpace.reward_for` against the substitute goal.  The input transition is
not mutated; a new transition is produced. -/
def relabel_transition (rg : ReachingGoal) (t : Transition)
    (substitute_goal : Vec) : Transition :=
  let p := get_reward_for_goal_and_state rg substitute_goal
    t.next_state.achieved_goal
  { t with
    state := { t.state with desired_goal := some substitute_goal }
    next_state := { t.next_state with desired_goal := some substitute_goal }
    reward := p.1
    game_over := p.2 }

/-- Modelled from the spec: the `future` goal-selection strategy draws the
substitute goal from later in the same episode.  `pick` is the sampler's raw
choice, clamped into the valid future range `[i, len)` of episode positions
at or after the transition being relabeled. -/
def future_index (len i pick : ℕ) : ℕ := i + pick % (len - i)

/-- Modelled from the spec: the substitute goal is an *achieved* outcome of
the episode — the goal-achievement signal of the chosen transition's
`next_state`. -/
def hindsight_goal (ep : List Transition) (j : ℕ) : Vec :=
  (ep.getD j default).next_state.achieved_goal

/-- Modelled from the spec: the `hindsight_transitions_per_regular_transition`
(`ratio`) synthetic transitions generated for the `i`-th stored transition of
an episode; the `k`-th copy uses the sampler choice `pick i k`. -/
def hindsight_transitions_for (rg : ReachingGoal) (ratio : ℕ)
    (pick : ℕ → ℕ → ℕ) (ep : List Transition) (i : ℕ) : List Transition :=
  (List.range ratio).map fun k =>
    relabel_transition rg (ep.getD i default)
      (hindsight_goal ep (future_index ep.length i (pick i k)))

/-- Modelled from the spec: the buffer's consumable set for one completed
episode — the stored originals followed by every relabeled transition. -/
def consumable_set (rg : ReachingGoal) (ratio : ℕ) (pick : ℕ → ℕ → ℕ)
    (ep : List Transition) : List Transition :=
  ep ++ (List.range ep.length).flatMap (hindsight_transitions_for rg ratio pick ep)

/-! ### The nested lower-level run (modelled from the spec) -/

/-- Modelled from the spec: the scheduler (`HRLGraphManager` /
`LevelScheduler`, whose body lives in the `rl_coach` library, not in this
repository's tutorial file) runs a bounded sequence of lower-level decision
steps per single top-level decision; each lower step invokes the lower
agent's `choose_action` against the shared graph manager, with its random
draw passed explicitly. -/
def run_lower_level (lower : HACDDPGAgent) (gm : GraphManager)
    (draws : List ℚ) : HACDDPGAgent × GraphManager :=
  draws.foldl (fun p d => choose_action p.1 p.2 d) (lower, gm)

/-! ### Concrete configurations used to instantiate hypotheses -/

/-- A middle-level agent (neither highest nor lowest), carrying the
notebook's goal-space parameters and the `time_limit = 40` that
`HACDDPGAlgorithmParameters` declares. -/
def mid_agent : HACDDPGAgent :=
  { is_a_highest_level_agent := false
    is_a_lowest_level_agent := false
    current_hrl_goal := [0, 0, 0]
    goal := preset_reaching_goal
    time_limit := 40
    sub_goal_testing_rate := mkRat 1 2
    phase := RunPhase.TRAIN
    exploration_phase := RunPhase.TRAIN
    distance_from_goal_samples := [] }

/-- A lowest-level agent. -/
def bottom_agent : HACDDPGAgent :=
  { mid_agent with is_a_lowest_level_agent := true }

/-- A highest-level agent. -/
def top_agent : HACDDPGAgent :=
  { mid_agent with is_a_highest_level_agent := true }

/-- A graph manager whose testing flag is currently clear. -/
def gm0 : GraphManager := ⟨false⟩

/-- A sample transition: its `next_state` reaches the assigned goal
`[0,0,0]` of `mid_agent` exactly, while the sub-goal `[2,2,2]` it emitted as
its action is missed by a wide margin. -/
def sample_transition : Transition :=
  { state := ⟨[1, 0, 0], none⟩
    action := [2, 2, 2]
    reward := mkRat 7 1
    next_state := ⟨[0, 0, 0], none⟩
    game_over := false }

/-! ## Claim theorems -/

/-- C1: for every transition shaped by a non-top level,
`update_transition_before_adding_to_replay_buffer` overwrites the
transition's reward with the first component of the goal space's reward for
`(desired_goal, next_state)` — the raw environment reward never survives
(the result does not depend on the incoming `reward` field at all) — and
sets the terminal flag to the OR of the original terminal flag and
`sub_goal_reached`.  The reward conjunct is stated whenever the subsequent
step-2 testing penalty (claim C2) does not override it. -/
theorem shaping_nonTop_overwrites_reward_and_terminal
    (ag : HACDDPGAgent) (fl : Bool) (t : Transition) (r₀ : ℚ)
    (h : ag.is_a_highest_level_agent = false) :
    ((update_transition_before_adding_to_replay_buffer ag fl t).1.game_over
        = (t.game_over ||
            (get_reward_for_goal_and_state ag.goal ag.current_hrl_goal
              t.next_state.achieved_goal).2))
    ∧ ((update_transition_before_adding_to_replay_buffer ag fl
          { t with reward := r₀ }).1
        = (update_transition_before_adding_to_replay_buffer ag fl t).1)
    ∧ ((ag.is_a_lowest_level_agent = true ∨ fl = false ∨
          (get_reward_for_goal_and_state ag.goal t.action
            t.next_state.achieved_goal).2 = true) →
        (update_transition_before_adding_to_replay_buffer ag fl t).1.reward
          = (get_reward_for_goal_and_state ag.goal ag.current_hrl_goal
              t.next_state.achieved_goal).1) := by
  obtain ⟨st, a, r, ns, go⟩ := t
  refine ⟨?_, ?_, ?_⟩
  · simp only [update_transition_before_adding_to_replay_buffer, h,
      Bool.not_false, if_true]
    split
    · split <;> rfl
    · rfl
  · simp only [update_transition_before_adding_to_replay_buffer, h,
      Bool.not_false, if_true]
  · intro hc
    rcases hc with h1 | h1 | h1 <;>
      simp [update_transition_before_adding_to_replay_buffer, h, h1]

/-- Witness for C1 at the bottom-level agent and the sample transition. -/
theorem shaping_nonTop_overwrites_reward_and_terminal_check :
    ((update_transition_before_adding_to_replay_buffer bottom_agent true
        sample_transition).1.game_over
      = (sample_transition.game_over ||
          (get_reward_for_goal_and_state bottom_agent.goal
            bottom_agent.current_hrl_goal
            sample_transition.next_state.achieved_goal).2))
    ∧ ((update_transition_before_adding_to_replay_buffer bottom_agent true
          { sample_transition with reward := 9 }).1
        = (update_transition_before_adding_to_replay_buffer bottom_agent true
            sample_transition).1)
    ∧ ((update_transition_before_adding_to_replay_buffer bottom_agent true
          sample_transition).1.reward
        = (get_reward_for_goal_and_state bottom_agent.goal
            bottom_agent.current_hrl_goal
            sample_transition.next_state.achieved_goal).1) := by
  have h := shaping_nonTop_overwrites_reward_and_terminal bottom_agent true
    sample_transition 9 (by decide)
  exact ⟨h.1, h.2.1, h.2.2 (Or.inl (by decide))⟩

/-- C2: a transition of a non-bottom, non-top level produced while
`should_test_current_sub_goal` is true, whose emitted sub-goal (its
`action`) is not reached by `next_state`, ends with reward exactly
`-time_limit` (the agent's `ap.algorithm.time_limit`), overriding the
step-1 distance-based goal reward. -/
theorem testing_missed_subgoal_penalty_mid_level
    (ag : HACDDPGAgent) (fl : Bool) (t : Transition)
    (hTop : ag.is_a_highest_level_agent = false)
    (hBot : ag.is_a_lowest_level_agent = false)
    (hTest : fl = true)
    (hMiss : (get_reward_for_goal_and_state ag.goal t.action
        t.next_state.achieved_goal).2 = false) :
    (update_transition_before_adding_to_replay_buffer ag fl t).1.reward
      = -(ag.time_limit : ℚ) := by
  obtain ⟨st, a, r, ns, go⟩ := t
  simp [update_transition_before_adding_to_replay_buffer, hTop, hBot, hTest,
    hMiss]

/-- Witness for C2 at the middle-level agent and the sample transition
(whose emitted sub-goal `[2,2,2]` is missed). -/
theorem testing_missed_subgoal_penalty_mid_level_check :
    (update_transition_before_adding_to_replay_buffer mid_agent true
        sample_transition).1.reward = -(mid_agent.time_limit : ℚ) :=
  testing_missed_subgoal_penalty_mid_level mid_agent true sample_transition
    (by decide) (by decide) (by decide) (by decide)

/-- C9: the step-2 subgoal-miss penalty also applies to the highest level:
for a top-level agent during a testing phase whose emitted sub-goal is
missed, the reward is overwritten to `-time_limit`, while no step-1 goal
shaping happens (the state is left untouched and no distance sample is
recorded: the agent comes back unchanged). -/
theorem top_level_testing_missed_penalty
    (ag : HACDDPGAgent) (fl : Bool) (t : Transition)
    (hTop : ag.is_a_highest_level_agent = true)
    (hBot : ag.is_a_lowest_level_agent = false)
    (hTest : fl = true)
    (hMiss : (get_reward_for_goal_and_state ag.goal t.action
        t.next_state.achieved_goal).2 = false) :
    ((update_transition_before_adding_to_replay_buffer ag fl t).1.reward
        = -(ag.time_limit : ℚ))
    ∧ ((update_transition_before_adding_to_replay_buffer ag fl t).1.state
        = t.state)
    ∧ ((update_transition_before_adding_to_replay_buffer ag fl t).2 = ag) := by
  obtain ⟨st, a, r, ns, go⟩ := t
  refine ⟨?_, ?_, ?_⟩ <;>
    simp [update_transition_before_adding_to_replay_buffer, hTop, hBot, hTest,
      hMiss]

/-- Witness for C9 at the top-level agent and the sample transition. -/
theorem top_level_testing_missed_penalty_check :
    ((update_transition_before_adding_to_replay_buffer top_agent true
        sample_transition).1.reward = -(top_agent.time_limit : ℚ))
    ∧ ((update_transition_before_adding_to_replay_buffer top_agent true
        sample_transition).1.state = sample_transition.state)
    ∧ ((update_transition_before_adding_to_replay_buffer top_agent true
        sample_transition).2 = top_agent) :=
  top_level_testing_missed_penalty top_agent true sample_transition
    (by decide) (by decide) (by decide) (by decide)

/-- C4, counterexample: `update_transition_before_adding_to_replay_buffer`
does modify state outside the transition object — at a non-top level it
appends a sample to the agent-owned `distance_from_goal` signal
(`self.distance_from_goal.add_sample(...)`), so the agent that comes back is
not the agent that went in. -/
theorem update_transition_mutates_agent_signal :
    (update_transition_before_adding_to_replay_buffer mid_agent false
        sample_transition).2 ≠ mid_agent := by decide

/-- C4, amended: the call is deterministic (it is a pure function of the
agent, the shared flag and the transition), and its only effect outside the
transition's fields is on the agent-owned `distance_from_goal` signal, which
receives exactly one distance sample when the level is non-top and nothing
otherwise; every other agent field is left unchanged. -/
theorem update_transition_agent_frame
    (ag : HACDDPGAgent) (fl : Bool) (t : Transition) :
    (update_transition_before_adding_to_replay_buffer ag fl t).2
      = { ag with distance_from_goal_samples :=
            if ag.is_a_highest_level_agent then ag.distance_from_goal_samples
            else ag.distance_from_goal_samples ++
              [distance_from_goal ag.current_hrl_goal
                t.next_state.achieved_goal] } := by
  obtain ⟨st, a, r, ns, go⟩ := t
  obtain ⟨topf, botf, g, gs, tl, rate, ph, eph, samples⟩ := ag
  cases topf <;> cases botf <;> cases fl <;>
    simp [update_transition_before_adding_to_replay_buffer] <;>
    (first | rfl | (split <;> rfl))

/-- C3, counterexample: the subgoal-miss penalty is *not* the negation of
the time limit that bounds the environment episode.  The notebook's
environment step budget is `time_limit = 1000`, while the penalty uses the
agent's own `ap.algorithm.time_limit` (declared as `40` by
`HACDDPGAlgorithmParameters`, and not present at all on the algorithm
parameters that `HACDDPGAgentParameters` actually installs): at the sample
testing transition the written reward is `-40`, not `-1000`. -/
theorem penalty_not_env_time_limit_counterexample :
    ((update_transition_before_adding_to_replay_buffer mid_agent true
        sample_transition).1.reward = -40)
    ∧ preset_time_limit = 1000
    ∧ ((-40 : ℚ) ≠ -((preset_time_limit : ℤ) : ℚ))
    ∧ HACDDPGAlgorithmParameters.mk'.time_limit = some 40
    ∧ HACDDPGAgentParameters.mk'.algorithm.time_limit = none := by
  refine ⟨by decide, rfl, by decide, rfl, rfl⟩

/-- C3, amended: the environment's step budget and the subgoal-miss penalty
magnitude are configured independently.  The penalty written during a
testing phase is the negation of the *agent's own*
`ap.algorithm.time_limit`; in the notebook preset the environment budget is
the separate `time_limit = 1000` variable, `HACDDPGAlgorithmParameters`
declares `time_limit = 40`, and the algorithm parameters installed by
`HACDDPGAgentParameters` carry no `time_limit` attribute at all. -/
theorem penalty_uses_agent_algorithm_time_limit
    (ag : HACDDPGAgent) (fl : Bool) (t : Transition)
    (hBot : ag.is_a_lowest_level_agent = false)
    (hTest : fl = true)
    (hMiss : (get_reward_for_goal_and_state ag.goal t.action
        t.next_state.achieved_goal).2 = false) :
    ((update_transition_before_adding_to_replay_buffer ag fl t).1.reward
        = -(ag.time_limit : ℚ))
    ∧ preset_time_limit = 1000
    ∧ HACDDPGAlgorithmParameters.mk'.time_limit = some 40
    ∧ HACDDPGAgentParameters.mk'.algorithm.time_limit = none := by
  refine ⟨?_, rfl, rfl, rfl⟩
  obtain ⟨st, a, r, ns, go⟩ := t
  cases hb : ag.is_a_highest_level_agent <;>
    simp [update_transition_before_adding_to_replay_buffer, hb, hBot, hTest,
      hMiss]

/-- Witness for the amended C3 at the middle-level agent and the sample
transition. -/
theorem penalty_uses_agent_algorithm_time_limit_check :
    ((update_transition_before_adding_to_replay_buffer mid_agent true
        sample_transition).1.reward = -(mid_agent.time_limit : ℚ))
    ∧ preset_time_limit = 1000
    ∧ HACDDPGAlgorithmParameters.mk'.time_limit = some 40
    ∧ HACDDPGAgentParameters.mk'.algorithm.time_limit = none :=
  penalty_uses_agent_algorithm_time_limit mid_agent true sample_transition
    (by decide) (by decide) (by decide)

/-- C7: in `choose_action`, whenever the agent's run phase is `TRAIN`, the
exploration policy's phase comes out `TEST` when the (possibly just
re-drawn) shared `should_test_current_sub_goal` flag is set, and otherwise
comes out as the agent's own run phase. -/
theorem train_phase_exploration_rule
    (ag : HACDDPGAgent) (gm : GraphManager) (rand_draw : ℚ)
    (h : ag.phase = RunPhase.TRAIN) :
    (choose_action ag gm rand_draw).1.exploration_phase
      = (if (choose_action ag gm rand_draw).2.should_test_current_sub_goal
          then RunPhase.TEST else ag.phase) := by
  obtain ⟨topf, botf, g, gs, tl, rate, ph, eph, samples⟩ := ag
  cases h
  cases topf <;> simp [choose_action] <;> split <;> simp

/-- Witness for C7 at the top-level agent in `TRAIN` phase with a draw below
the testing rate. -/
theorem train_phase_exploration_rule_check :
    (choose_action top_agent gm0 (mkRat 1 4)).1.exploration_phase
      = (if (choose_action top_agent gm0 (mkRat 1 4)).2.should_test_current_sub_goal
          then RunPhase.TEST else top_agent.phase) :=
  train_phase_exploration_rule top_agent gm0 (mkRat 1 4) (by decide)

theorem choose_action_preserves_top_flag
    (ag : HACDDPGAgent) (gm : GraphManager) (rand_draw : ℚ) :
    (choose_action ag gm rand_draw).1.is_a_highest_level_agent
      = ag.is_a_highest_level_agent := by
  obtain ⟨topf, botf, g, gs, tl, rate, ph, eph, samples⟩ := ag
  simp only [choose_action]
  repeat' split
  all_goals rfl

theorem choose_action_nonTop_gm
    (ag : HACDDPGAgent) (gm : GraphManager) (rand_draw : ℚ)
    (h : ag.is_a_highest_level_agent = false) :
    (choose_action ag gm rand_draw).2 = gm := by
  simp [choose_action, h]

/-- C6: the shared `should_test_current_sub_goal` flag is written only by
the highest-level agent's `choose_action` — a non-top level's
`choose_action` returns the graph manager untouched — and consequently it
never changes across an entire nested lower-level run (any sequence of
lower-level decision steps leaves the graph manager exactly as the top
decision set it). -/
theorem should_test_flag_top_level_only :
    (∀ (ag : HACDDPGAgent) (gm : GraphManager) (rand_draw : ℚ),
      ag.is_a_highest_level_agent = false →
        (choose_action ag gm rand_draw).2 = gm)
    ∧ (∀ (lower : HACDDPGAgent) (gm : GraphManager) (draws : List ℚ),
      lower.is_a_highest_level_agent = false →
        (run_lower_level lower gm draws).2 = gm) := by
  refine ⟨choose_action_nonTop_gm, ?_⟩
  intro lower gm draws
  induction draws generalizing lower gm with
  | nil => intro h; rfl
  | cons d ds ih =>
      intro h
      show (run_lower_level (choose_action lower gm d).1
        (choose_action lower gm d).2 ds).2 = gm
      rw [choose_action_nonTop_gm lower gm d h]
      exact ih (choose_action lower gm d).1 gm
        ((choose_action_preserves_top_flag lower gm d).trans h)

/-- Witness for C6 at the bottom-level agent: one step and a two-step nested
run both leave the flag untouched. -/
theorem should_test_flag_top_level_only_check :
    ((choose_action bottom_agent gm0 (mkRat 1 4)).2 = gm0)
    ∧ ((run_lower_level bottom_agent gm0 [mkRat 1 4, mkRat 3 4]).2 = gm0) :=
  ⟨should_test_flag_top_level_only.1 bottom_agent gm0 (mkRat 1 4) (by decide),
   should_test_flag_top_level_only.2 bottom_agent gm0 [mkRat 1 4, mkRat 3 4]
     (by decide)⟩

theorem getD_range_map {α : Type} (f : ℕ → α) (r k : ℕ) (d : α) (h : k < r) :
    ((List.range r).map f).getD k d = f k := by
  rw [List.getD_eq_getElem?_getD, List.getElem?_map, List.getElem?_range h]
  rfl

theorem len_flatMap_const {α : Type} (g : ℕ → List α) (n r : ℕ)
    (h : ∀ i, (g i).length = r) :
    ((List.range n).flatMap g).length = n * r := by
  rw [List.length_flatMap]
  induction n with
  | zero => simp
  | succ m ih =>
      rw [List.range_succ]
      simp [h, ih, Nat.succ_mul]

/-- `hindsight_transitions_per_regular_transition = 3` set on the top
agent's memory parameters in the notebook preset. -/
def top_hindsight_transitions_per_regular_transition : ℕ := 3

/-- `hindsight_transitions_per_regular_transition = 4` set on the bottom
agent's memory parameters in the notebook preset. -/
def bottom_hindsight_transitions_per_regular_transition : ℕ := 4

/-- C5: for every stored original transition (position `i` of an episode)
in a hindsight buffer with relabel ratio `ratio`, the consumable set holds
exactly `ratio` additional relabeled transitions for it — never fewer,
never more; the `k`-th relabeled copy substitutes a goal achieved at a
position of the *same* episode no earlier than `i`, with its reward
recomputed through the goal space's reward; and relabeling never mutates
the stored originals, which sit unchanged at the front of the consumable
set. -/
theorem hindsight_relabel_ratio_exact
    (rg : ReachingGoal) (ratio : ℕ) (pick : ℕ → ℕ → ℕ)
    (ep : List Transition) (i k : ℕ)
    (hi : i < ep.length) (hk : k < ratio) :
    ((hindsight_transitions_for rg ratio pick ep i).length = ratio)
    ∧ (i ≤ future_index ep.length i (pick i k))
    ∧ (future_index ep.length i (pick i k) < ep.length)
    ∧ ((hindsight_transitions_for rg ratio pick ep i).getD k default
        = relabel_transition rg (ep.getD i default)
            (hindsight_goal ep (future_index ep.length i (pick i k))))
    ∧ (((hindsight_transitions_for rg ratio pick ep i).getD k default).reward
        = (get_reward_for_goal_and_state rg
            (hindsight_goal ep (future_index ep.length i (pick i k)))
            ((ep.getD i default).next_state.achieved_goal)).1)
    ∧ ((consumable_set rg ratio pick ep).take ep.length = ep)
    ∧ ((consumable_set rg ratio pick ep).length
        = ep.length * (1 + ratio)) := by
  have hlen : ∀ j, (hindsight_transitions_for rg ratio pick ep j).length
      = ratio := by
    intro j
    simp [hindsight_transitions_for]
  have hfut_lt : future_index ep.length i (pick i k) < ep.length := by
    have : pick i k % (ep.length - i) < ep.length - i :=
      Nat.mod_lt _ (by omega)
    unfold future_index
    omega
  have hgetD : (hindsight_transitions_for rg ratio pick ep i).getD k default
      = relabel_transition rg (ep.getD i default)
          (hindsight_goal ep (future_index ep.length i (pick i k))) := by
    unfold hindsight_transitions_for
    exact getD_range_map _ ratio k default hk
  refine ⟨hlen i, Nat.le_add_right i _, hfut_lt, hgetD, ?_, ?_, ?_⟩
  · rw [hgetD]
    simp [relabel_transition]
  · exact List.take_left ep _
  · unfold consumable_set
    rw [List.length_append, len_flatMap_const _ _ ratio hlen]
    ring

/-- A second transition, forming a two-step episode with
`sample_transition`. -/
def sample_transition2 : Transition :=
  { state := ⟨[0, 0, 0], none⟩
    action := [1, 1, 1]
    reward := mkRat (-3) 1
    next_state := ⟨[1, 1, 1], none⟩
    game_over := true }

/-- A two-transition episode. -/
def sample_episode : List Transition := [sample_transition, sample_transition2]

/-- A concrete sampler choice for the hindsight relabeler. -/
def sample_pick (i k : ℕ) : ℕ := i + 2 * k

/-- Witness for C5 with the top agent's preset relabel ratio (3) on the
two-transition sample episode, at original position 0, relabeled copy 1. -/
theorem hindsight_relabel_ratio_exact_check :
    ((hindsight_transitions_for preset_reaching_goal
        top_hindsight_transitions_per_regular_transition sample_pick
        sample_episode 0).length
      = top_hindsight_transitions_per_regular_transition)
    ∧ (0 ≤ future_index sample_episode.length 0 (sample_pick 0 1))
    ∧ (future_index sample_episode.length 0 (sample_pick 0 1)
        < sample_episode.length)
    ∧ ((hindsight_transitions_for preset_reaching_goal
          top_hindsight_transitions_per_regular_transition sample_pick
          sample_episode 0).getD 1 default
        = relabel_transition preset_reaching_goal
            (sample_episode.getD 0 default)
            (hindsight_goal sample_episode
              (future_index sample_episode.length 0 (sample_pick 0 1))))
    ∧ (((hindsight_transitions_for preset_reaching_goal
          top_hindsight_transitions_per_regular_transition sample_pick
          sample_episode 0).getD 1 default).reward
        = (get_reward_for_goal_and_state preset_reaching_goal
            (hindsight_goal sample_episode
              (future_index sample_episode.length 0 (sample_pick 0 1)))
            ((sample_episode.getD 0 default).next_state.achieved_goal)).1)
    ∧ ((consumable_set preset_reaching_goal
          top_hindsight_transitions_per_regular_transition sample_pick
          sample_episode).take sample_episode.length = sample_episode)
    ∧ ((consumable_set preset_reaching_goal
          top_hindsight_transitions_per_regular_transition sample_pick
          sample_episode).length
        = sample_episode.length
            * (1 + top_hindsight_transitions_per_regular_transition)) :=
  hindsight_relabel_ratio_exact preset_reaching_goal
    top_hindsight_transitions_per_regular_transition sample_pick
    sample_episode 0 1 (by decide) (by decide)

/-- C8: with the notebook's goal space (per-dimension distance
`|goal - state|`, thresholds `[0.075, 0.075, 0.75]`), the goal `[0,0,0]`
and the achieved state `[0.05, 0.02, 0.1]` count as reached — every
dimension's distance is within its threshold — and the reward is the
success reward `goal_reaching_reward = 0`, not the `default_reward = -1`. -/
theorem preset_goal_scenario_reached :
    (get_reward_for_goal_and_state preset_reaching_goal [0, 0, 0]
        [mkRat 1 20, mkRat 1 50, mkRat 1 10]
      = (preset_reaching_goal.goal_reaching_reward, true))
    ∧ preset_reaching_goal.goal_reaching_reward = 0
    ∧ preset_reaching_goal.default_reward = -1 :=
  ⟨by decide, rfl, rfl⟩

/-- C10: `HACDDPGAgentParameters()` replaces its `algorithm` attribute with
a plain `DDPGAlgorithmParameters()` instance, so the HAC-specific defaults
that `HACDDPGAlgorithmParameters` declares (`sub_goal_testing_rate = 0.5`,
`time_limit = 40`) are absent from the algorithm parameters of every agent
built from `HACDDPGAgentParameters` — exactly the attributes the agent reads
at construction (`sub_goal_testing_rate`) and when applying the miss penalty
(`time_limit`). -/
theorem hac_agent_parameters_algorithm_plain :
    (HACDDPGAgentParameters.mk'.algorithm = DDPGAlgorithmParameters.mk')
    ∧ HACDDPGAgentParameters.mk'.algorithm.sub_goal_testing_rate = none
    ∧ HACDDPGAgentParameters.mk'.algorithm.time_limit = none
    ∧ HACDDPGAlgorithmParameters.mk'.sub_goal_testing_rate = some (mkRat 1 2)
    ∧ HACDDPGAlgorithmParameters.mk'.time_limit = some 40 :=
  ⟨rfl, rfl, rfl, rfl, rfl⟩
